import Mathlib

/-!
Shallow embedding of `src/financial_documents_api.py` (financial documents
resolution service).  Python strings are modelled as `List Char`; Python
`None`-able values as `Option`; the external collaborators (HTTP transport,
Supabase storage, the Gemini verification provider, the Firecrawl extraction
provider) as explicit parameters/oracles.  Every definition follows the
corresponding Python function line by line.
-/

namespace FinDocs

/-- Python strings, modelled as lists of characters. -/
abbrev Str := List Char

/-- Python whitespace characters removed by `str.strip()`. -/
def isSpace (c : Char) : Bool :=
  c == ' ' || c == '\t' || c == '\n' || c == '\r' || c == '\x0b' || c == '\x0c'

/-- Python `s.strip()`: drop whitespace from both ends. -/
def pyStrip (s : Str) : Str := (s.dropWhile isSpace).rdropWhile isSpace

/-- Python `s.lower()` (ASCII case folding suffices for the source's data). -/
def pyLower (s : Str) : Str := s.map Char.toLower

/-- Python `s.upper()`. -/
def pyUpper (s : Str) : Str := s.map Char.toUpper

/-- Python `needle in hay` for strings (substring test). -/
def pyContains : Str → Str → Bool
  | [], needle => needle == []
  | hay@(_ :: t), needle => needle.isPrefixOf hay || pyContains t needle

/-- Python `x or None` on an optional string: `None` and `""` are falsy. -/
def orNone (x : Option Str) : Option Str :=
  match x with
  | some s => if s = [] then none else some s
  | none => none

/-- Python `a or b` on two optional strings (`a` falsy when missing or empty). -/
def pyOr (a b : Option Str) : Option Str :=
  match orNone a with
  | some s => some s
  | none => b

/-- Python `s.split(sep)` for a single-character separator.
Always returns at least one part; `"".split(sep) = [""]`. -/
def splitOnChar (sep : Char) : Str → List Str
  | [] => [[]]
  | c :: cs =>
    let r := splitOnChar sep cs
    if c = sep then [] :: r
    else
      match r with
      | [] => [[c]]
      | h :: t => (c :: h) :: t

/-- Python `s[-2:]`. -/
def lastTwo (s : Str) : Str := s.drop (s.length - 2)

/-- Python `dict.get(key, default)` over an association list kept in the
source's literal order. -/
def dictGet (d : List (Str × Str)) (k dflt : Str) : Str :=
  match d.find? (fun p => p.1 == k) with
  | some p => p.2
  | none => dflt

/-- Numeric value of a digit string. -/
def digitsVal (ds : Str) : Nat := ds.foldl (fun n c => 10 * n + (c.toNat - 48)) 0

/-- Python `int(s)`: strip whitespace, optional sign, all digits; otherwise a
`ValueError` (modelled as `none`). -/
def pyInt? (s : Str) : Option Int :=
  match pyStrip s with
  | '+' :: ds => if ds ≠ [] ∧ ds.all (fun c => c.isDigit) then some (digitsVal ds) else none
  | '-' :: ds => if ds ≠ [] ∧ ds.all (fun c => c.isDigit) then some (-(digitsVal ds : Int)) else none
  | ds => if ds ≠ [] ∧ ds.all (fun c => c.isDigit) then some (digitsVal ds) else none

/-- The module-level `FISCAL_YEAR_CONVERSION` dictionary (English → Nepali). -/
def FISCAL_YEAR_CONVERSION : List (Str × Str) :=
  [ ("2000/01".data, "2057/58".data), ("2001/02".data, "2058/59".data),
    ("2002/03".data, "2059/60".data), ("2003/04".data, "2060/61".data),
    ("2004/05".data, "2061/62".data), ("2005/06".data, "2062/63".data),
    ("2006/07".data, "2063/64".data), ("2007/08".data, "2064/65".data),
    ("2008/09".data, "2065/66".data), ("2009/10".data, "2066/67".data),
    ("2010/11".data, "2067/68".data), ("2011/12".data, "2068/69".data),
    ("2012/13".data, "2069/70".data), ("2013/14".data, "2070/71".data),
    ("2014/15".data, "2071/72".data), ("2015/16".data, "2072/73".data),
    ("2016/17".data, "2073/74".data), ("2017/18".data, "2074/75".data),
    ("2018/19".data, "2075/76".data), ("2019/20".data, "2076/77".data),
    ("2020/21".data, "2077/78".data), ("2021/22".data, "2078/79".data),
    ("2022/23".data, "2079/80".data), ("2023/24".data, "2080/81".data),
    ("2024/25".data, "2081/82".data), ("2025/26".data, "2082/83".data) ]

/-- `FISCAL_YEAR_REVERSE = {v: k for k, v in FISCAL_YEAR_CONVERSION.items()}`. -/
def FISCAL_YEAR_REVERSE : List (Str × Str) :=
  FISCAL_YEAR_CONVERSION.map (fun p => (p.2, p.1))

/-- `normalize_fiscal_year_format` (src lines 256-269): normalize a fiscal year
label to `YYYY/YY` shape. -/
def normalize_fiscal_year_format (fiscal_year : Str) : Str :=
  if fiscal_year = [] then fiscal_year
  else
    let fy := pyStrip fiscal_year
    if ('/' : Char) ∈ fy then
      match splitOnChar '/' fy with
      | [p1, p2] =>
        let year1 := pyStrip p1
        let year2 := pyStrip p2
        if year1.length = 4 ∧ year2.length = 4 then year1 ++ '/' :: lastTwo year2
        else fy
      | _ => fy
    else fy

/-- `normalize_fiscal_year` (src lines 370-381): return the
`(nepali, english)` dual representation of a fiscal-year label. -/
def normalize_fiscal_year (fiscal_year : Str) : Str × Str :=
  let fy := pyStrip fiscal_year
  match pyInt? ((splitOnChar '/' fy).headI) with
  | some y =>
    if y < 2030 then (dictGet FISCAL_YEAR_CONVERSION fy fy, fy)
    else (fy, dictGet FISCAL_YEAR_REVERSE fy fy)
  | none => (fy, dictGet FISCAL_YEAR_REVERSE fy fy)

/-- The Nepali month → quarter table of `extract_quarter_from_title`
(src lines 2735-2744), in the source's literal (insertion) order. -/
def nepali_months : List (Str × Str) :=
  [ ("shrawan".data, "Q1".data), ("sawan".data, "Q1".data),
    ("ashwin".data, "Q1".data), ("ashoj".data, "Q1".data), ("asoj".data, "Q1".data),
    ("kartik".data, "Q2".data), ("mangsir".data, "Q2".data),
    ("poush".data, "Q2".data), ("magh".data, "Q2".data),
    ("falgun".data, "Q3".data), ("chaitra".data, "Q3".data), ("chait".data, "Q3".data),
    ("baisakh".data, "Q4".data), ("jestha".data, "Q4".data),
    ("ashadh".data, "Q4".data), ("ashad".data, "Q4".data), ("ashar".data, "Q4".data) ]

/-- The English keyword → quarter table of `extract_quarter_from_title`
(src lines 2752-2761), in the source's literal order; includes the JBBL
backend typo "quater". -/
def english_keywords : List (Str × Str) :=
  [ ("q1".data, "Q1".data), ("q2".data, "Q2".data),
    ("q3".data, "Q3".data), ("q4".data, "Q4".data),
    ("1st".data, "Q1".data), ("2nd".data, "Q2".data),
    ("3rd".data, "Q3".data), ("4th".data, "Q4".data),
    ("first".data, "Q1".data), ("second".data, "Q2".data),
    ("third".data, "Q3".data), ("fourth".data, "Q4".data),
    ("quarter 1".data, "Q1".data), ("quarter 2".data, "Q2".data),
    ("quarter 3".data, "Q3".data), ("quarter 4".data, "Q4".data),
    ("quarter-1".data, "Q1".data), ("quarter-2".data, "Q2".data),
    ("quarter-3".data, "Q3".data), ("quarter-4".data, "Q4".data),
    ("first_quater".data, "Q1".data), ("second_quater".data, "Q2".data),
    ("third_quater".data, "Q3".data), ("fourth_quater".data, "Q4".data),
    ("first quater".data, "Q1".data), ("second quater".data, "Q2".data),
    ("third quater".data, "Q3".data), ("fourth quater".data, "Q4".data) ]

/-- First table entry whose key occurs in `t` (Python `for k, v in d.items()`
with `if k in t: return v`). -/
def firstMatch (table : List (Str × Str)) (t : Str) : Option Str :=
  match table with
  | [] => none
  | (k, v) :: rest => if pyContains t k then some v else firstMatch rest t

/-- `extract_quarter_from_title` (src lines 2725-2767): Nepali month tokens
first, then English ordinal/numeral keywords; first match wins, else `None`. -/
def extract_quarter_from_title (title : Str) : Option Str :=
  if title = [] then none
  else
    let t := pyLower title
    match firstMatch nepali_months t with
    | some q => some q
    | none => firstMatch english_keywords t

/-- A row of the `financial_documents` / `development_banks_documents` table. -/
structure Doc where
  id : Nat
  bank_id : Nat
  bank_symbol : Str
  pdf_url : Option Str
  fiscal_year : Option Str
  report_type : Option Str
  quarter : Option Str
  scraped_at : Str
  method : Str
deriving DecidableEq, Repr

/-- A report dictionary handed to the persistence layer (produced by an
adapter or by the extraction tier).  Values may be missing/null. -/
structure Report where
  file_url : Option Str := none
  pdf_url : Option Str := none
  fiscal_year : Option Str := none
  report_type : Option Str := none
  quarter : Option Str := none
deriving DecidableEq, Repr

/-- The metadata dictionary returned by `extract_metadata_from_pdf_url`
(the Gemini verification collaborator); `None` overall when extraction fails. -/
structure AIMeta where
  fiscal_year : Option Str := none
  report_type : Option Str := none
  quarter : Option Str := none
  confidence : Option Str := none
deriving DecidableEq, Repr

/-- Result of a persistence call: the value returned to the caller, the
database after the call, and the list of records written (inserted row or
updated row, with the exact field values persisted). -/
structure WriteResult where
  ret : Option Doc
  db : List Doc
  writes : List Doc
deriving DecidableEq, Repr

/-- `ai_metadata.get('confidence') in ['high', 'medium']`. -/
def confidenceOk (m : AIMeta) : Prop :=
  m.confidence = some ("high".data) ∨ m.confidence = some ("medium".data)

instance (m : AIMeta) : Decidable (confidenceOk m) := by
  unfold confidenceOk; infer_instance

/-- `insert_document_to_db` (src lines 1826-1929).  `db` is the
`financial_documents` table, `now` the timestamp `datetime.now().isoformat()`,
`newId` the id the store assigns on insert, `ai` the outcome of the
`extract_metadata_from_pdf_url` call made on the duplicate path. -/
def insert_document_to_db (db : List Doc) (now : Str) (newId : Nat)
    (ai : Option AIMeta) (bank_id : Nat) (bank_symbol : Str) (r : Report) :
    WriteResult :=
  let pdf_url := r.file_url
  match db.filter (fun d => d.pdf_url == pdf_url) with
  | existing_doc :: _ =>
    match ai with
    | some m =>
      if confidenceOk m then
        let ai_quarter :=
          if m.report_type = some ("annual".data) then none else orNone m.quarter
        if existing_doc.fiscal_year = m.fiscal_year ∧
            existing_doc.report_type = m.report_type ∧
            existing_doc.quarter = ai_quarter then
          ⟨some existing_doc, db, []⟩
        else
          let d' := { existing_doc with
            fiscal_year := m.fiscal_year, report_type := m.report_type,
            quarter := ai_quarter, scraped_at := now, method := "api".data }
          ⟨some d', db.map (fun x => if x.id = existing_doc.id then d' else x), [d']⟩
      else ⟨some existing_doc, db, []⟩
    | none => ⟨some existing_doc, db, []⟩
  | [] =>
    let report_type := r.report_type
    let quarter :=
      if report_type = some ("annual".data) then none else orNone r.quarter
    let nd : Doc :=
      ⟨newId, bank_id, bank_symbol, pdf_url, r.fiscal_year, report_type,
        quarter, now, "api".data⟩
    ⟨some nd, db ++ [nd], [nd]⟩

/-- `insert_dev_bank_document_to_db` (src lines 1932-2027): same structure as
`insert_document_to_db` but reads `pdf_url or file_url` and applies no
quarter normalization on either write path. -/
def insert_dev_bank_document_to_db (db : List Doc) (now : Str) (newId : Nat)
    (ai : Option AIMeta) (bank_id : Nat) (bank_symbol : Str) (r : Report) :
    WriteResult :=
  let pdf_url := pyOr r.pdf_url r.file_url
  match db.filter (fun d => d.pdf_url == pdf_url) with
  | existing_doc :: _ =>
    match ai with
    | some m =>
      if confidenceOk m then
        if existing_doc.fiscal_year = m.fiscal_year ∧
            existing_doc.report_type = m.report_type ∧
            existing_doc.quarter = m.quarter then
          ⟨some existing_doc, db, []⟩
        else
          let d' := { existing_doc with
            fiscal_year := m.fiscal_year, report_type := m.report_type,
            quarter := m.quarter, scraped_at := now, method := "api".data }
          ⟨some d', db.map (fun x => if x.id = existing_doc.id then d' else x), [d']⟩
      else ⟨some existing_doc, db, []⟩
    | none => ⟨some existing_doc, db, []⟩
  | [] =>
    let nd : Doc :=
      ⟨newId, bank_id, bank_symbol, pdf_url, r.fiscal_year, r.report_type,
        r.quarter, now, "api".data⟩
    ⟨some nd, db ++ [nd], [nd]⟩

/-- Matching rows of one Supabase query issued by `check_document_exists`:
`eq(bank_id) . eq(fiscal_year) . eq(report_type)` and `eq(quarter)` when the
`quarter` argument is truthy else `is_(quarter, "null")`. -/
def docQuery (db : List Doc) (bank_id : Nat) (fiscal_year report_type : Str)
    (quarter : Option Str) : List Doc :=
  db.filter (fun d =>
    d.bank_id == bank_id && d.fiscal_year == some fiscal_year &&
    d.report_type == some report_type &&
    (match orNone quarter with
     | some q => d.quarter == some q
     | none => d.quarter == none))

/-- `check_document_exists` (src lines 408-441): look the document up under
the requested fiscal year, then under its alternate-calendar form. -/
def check_document_exists (db : List Doc) (bank_id : Nat) (fiscal_year : Str)
    (report_type : Str) (quarter : Option Str) : Option Doc :=
  match docQuery db bank_id fiscal_year report_type quarter with
  | d :: _ => some d
  | [] =>
    let p := normalize_fiscal_year fiscal_year
    let alt_fy := if fiscal_year = p.1 then p.2 else p.1
    if alt_fy ≠ fiscal_year then
      match docQuery db bank_id alt_fy report_type quarter with
      | d :: _ => some d
      | [] => none
    else none

/-- A row of the `banks` table (only the fields the embedded paths read). -/
structure BankRow where
  id : Nat
  symbol : Str
  annual_report_url : Option Str := none
  quarter_report_url : Option Str := none
  report_page : Option Str := none
  website : Option Str := none
deriving DecidableEq, Repr

/-- `get_bank_info` (src lines 384-393): first `banks` row whose symbol equals
the upper-cased query symbol. -/
def get_bank_info (banks : List BankRow) (bank_symbol : Str) : Option BankRow :=
  match banks.filter (fun b => b.symbol == pyUpper bank_symbol) with
  | b :: _ => some b
  | [] => none

/-- `get_scraping_urls` (src lines 1393-1408): candidate URLs in priority
order (dedicated report-type URL, then the general report page, then the
website as last resort). -/
def get_scraping_urls (bank : BankRow) (report_type : Str) : List (Str × Str) :=
  let urls : List (Str × Str) :=
    if report_type = "annual".data then
      (match orNone bank.annual_report_url with
       | some u => [(u, "annual_report_url".data)]
       | none => []) ++
      (match orNone bank.report_page with
       | some u => [(u, "report_page".data)]
       | none => [])
    else if report_type = "quarterly".data then
      (match orNone bank.quarter_report_url with
       | some u => [(u, "quarter_report_url".data)]
       | none => []) ++
      (match orNone bank.report_page with
       | some u => [(u, "report_page".data)]
       | none => [])
    else []
  if urls = [] then
    match orNone bank.website with
    | some u => [(u, "website".data)]
    | none => []
  else urls

/-- The structured JSON payload a Firecrawl scrape returns for the prompt of
`scrape_specific_report` (`result.json`). -/
structure ScrapeJson where
  found : Bool
  report : Option Report
deriving DecidableEq, Repr

/-- One `firecrawl.scrape` outcome: a raised exception, or a result whose
metadata carries an optional HTTP status and whose json payload may be
missing. -/
inductive ScrapeOutcome where
  | raise (msg : Str)
  | ok (status : Option Nat) (json : Option ScrapeJson)
deriving DecidableEq, Repr

/-- `result.metadata and result.metadata.status_code and
result.metadata.status_code >= 400` (a `0` status is falsy in Python). -/
def statusBad (status : Option Nat) : Bool :=
  match status with
  | some n => n != 0 && n ≥ 400
  | none => false

/-- Observable effects of a `scrape_specific_report` run: number of
`firecrawl.scrape` calls issued and the `time.sleep` durations in order. -/
structure ScrapeState where
  calls : Nat
  sleeps : List Nat
deriving DecidableEq, Repr

/-- Append one `time.sleep` duration. -/
def addSleep (st : ScrapeState) (n : Nat) : ScrapeState :=
  { st with sleeps := st.sleeps ++ [n] }

/-- Count one `firecrawl.scrape` call. -/
def bumpCall (st : ScrapeState) : ScrapeState :=
  { st with calls := st.calls + 1 }

/-- `found and report and report.get('file_url')`. -/
def scrapeHit (j : ScrapeJson) : Bool :=
  j.found &&
    (match j.report with
     | some rep => orNone rep.file_url != none
     | none => false)

/-- The `for attempt in range(max_retries)` loop of `scrape_specific_report`
(src lines 1794-1821) for one URL; `remaining` counts the attempts still
available, so the current attempt index is `max - remaining`.  The oracle
maps the global call counter to the scrape outcome. -/
def tryUrlAux (oracle : Nat → ScrapeOutcome) (max : Nat) :
    Nat → ScrapeState → Option Report × ScrapeState
  | 0, st => (none, st)
  | remaining + 1, st =>
    let attempt := max - (remaining + 1)
    let st1 := if attempt > 0 then addSleep st (5 * attempt) else st
    let out := oracle st1.calls
    let st2 := bumpCall st1
    match out with
    | .raise _ =>
      if remaining > 0 then tryUrlAux oracle max remaining (addSleep st2 10)
      else (none, st2)
    | .ok status json =>
      if statusBad status then
        if remaining > 0 then tryUrlAux oracle max remaining (addSleep st2 20)
        else (none, st2)
      else
        match json with
        | none =>
          if remaining > 0 then tryUrlAux oracle max remaining st2
          else (none, st2)
        | some j =>
          if scrapeHit j then (j.report, st2) else (none, st2)

/-- The outer URL loop of `scrape_specific_report`: a found report returns
immediately; otherwise a 3-second cooldown separates consecutive URLs. -/
def goUrls (oracle : Nat → ScrapeOutcome) (max : Nat) :
    List (Str × Str) → ScrapeState → Option Report × ScrapeState
  | [], st => (none, st)
  | _ :: rest, st =>
    match tryUrlAux oracle max max st with
    | (some rep, st') => (some rep, st')
    | (none, st') => goUrls oracle max rest (addSleep st' 3)

/-- `scrape_specific_report` (src lines 1787-1823) with `max_retries = 3`. -/
def scrape_specific_report (oracle : Nat → ScrapeOutcome) (bank : BankRow)
    (report_type : Str) : Option Report × ScrapeState :=
  let urls := get_scraping_urls bank report_type
  if urls = [] then (none, ⟨0, []⟩)
  else goUrls oracle 3 urls ⟨0, []⟩

/-- One document entry of the Nabil financial-document API payload. -/
structure NabilDoc where
  fiscal_year : Str := []
  name : Str := []
  name_np : Option Str := none
  file : Str := []
deriving DecidableEq, Repr

/-- One subcategory entry of the Nabil API payload. -/
structure NabilSub where
  subcategory_id : Option Str := none
  documents : List NabilDoc := []
deriving DecidableEq, Repr

/-- A document descriptor returned by a structured-source adapter. -/
structure AdapterReport where
  fiscal_year : Str
  report_type : Str
  quarter : Option Str
  pdf_url : Option Str
  document_name : Str
  source : Str
deriving DecidableEq, Repr

/-- The inline `quarter_map` of `fetch_from_nabil_api` (src lines 1500-1502). -/
def nabilQuarterKeywords (q : Str) : List Str :=
  if q = "Q1".data then ["first".data, "q1".data, "1st".data]
  else if q = "Q2".data then ["second".data, "q2".data, "2nd".data]
  else if q = "Q3".data then ["third".data, "q3".data, "3rd".data]
  else if q = "Q4".data then ["fourth".data, "q4".data, "4th".data]
  else []

/-- The per-document filter of the `fetch_from_nabil_api` loop
(src lines 1493-1504): fiscal year matches after normalization, the quarter
keyword check passes for quarterly queries, and the document is not the
Nepali-language variant. -/
def nabilDocOk (fiscal_year report_type : Str) (quarter : Option Str)
    (d : NabilDoc) : Bool :=
  let doc_name := pyLower d.name
  (normalize_fiscal_year_format d.fiscal_year ==
      normalize_fiscal_year_format fiscal_year) &&
  (if report_type = "quarterly".data ∧ orNone quarter ≠ none then
      (nabilQuarterKeywords (quarter.getD [])).any (fun kw => pyContains doc_name kw)
    else true) &&
  !(orNone d.name_np != none || pyContains doc_name ("nepali".data))

/-- `config['file_base']` of the NABIL entry of `DYNAMIC_API_BANKS`. -/
def nabilFileBase : Str := "https://siteadmin.nabilbank.com/assets/backend".data

/-- `fetch_from_nabil_api` (src lines 1476-1512).  `resp` is the outcome of
the `requests.get(...)` + `.json()` transport step inside the `try` block:
`Except.error` models any raised exception, which the adapter's
`except Exception` handler converts to `None`. -/
def fetch_from_nabil_api (resp : Except Str (Nat × List NabilSub))
    (fiscal_year report_type : Str) (quarter : Option Str) :
    Option AdapterReport :=
  match resp with
  | .error _ => none
  | .ok (status, data) =>
    if status ≠ 200 then none
    else
      let target := if report_type = "annual".data then "95".data else "94".data
      let documents :=
        match data.find? (fun s => s.subcategory_id == some target) with
        | some s => s.documents
        | none => []
      match documents.find? (nabilDocOk fiscal_year report_type quarter) with
      | some d =>
        some ⟨normalize_fiscal_year_format fiscal_year, report_type, quarter,
          (if d.file ≠ [] then some (nabilFileBase ++ '/' :: d.file) else none),
          d.name, "nabil_api".data⟩
      | none => none

/-- The transport/parse outcomes of the five commercial-bank adapters for one
dispatch.  For the four adapters not individually embedded, the component is
the outcome of the whole `try` body: `Except.error` for a raised exception,
`Except.ok r` for a normal completion returning `r`. -/
structure AdapterEnv where
  nabil : Except Str (Nat × List NabilSub)
  pcbl : Except Str (Option AdapterReport)
  sanima : Except Str (Option AdapterReport)
  gbime : Except Str (Option AdapterReport)
  nimb : Except Str (Option AdapterReport)
deriving Repr

/-- The `try ... except Exception: return None` wrapper shared by every
adapter body. -/
def tryAdapter (body : Except Str (Option AdapterReport)) : Option AdapterReport :=
  match body with
  | .ok r => r
  | .error _ => none

/-- The keys of the `DYNAMIC_API_BANKS` configuration dictionary. -/
def dynamicApiBankSymbols : List Str :=
  ["NABIL".data, "PCBL".data, "SANIMA".data, "GBIME".data, "NIMB".data]

/-- `has_dynamic_api` (src lines 1411-1413). -/
def has_dynamic_api (bank_symbol : Str) : Bool :=
  dynamicApiBankSymbols.contains (pyUpper bank_symbol)

/-- `fetch_from_dynamic_api` (src lines 2700-2714): the commercial-bank
dispatcher. -/
def fetch_from_dynamic_api (env : AdapterEnv)
    (bank_symbol fiscal_year report_type : Str) (quarter : Option Str) :
    Option AdapterReport :=
  let b := pyUpper bank_symbol
  if ¬ has_dynamic_api b then none
  else if b = "NABIL".data then fetch_from_nabil_api env.nabil fiscal_year report_type quarter
  else if b = "PCBL".data then tryAdapter env.pcbl
  else if b = "SANIMA".data then tryAdapter env.sanima
  else if b = "GBIME".data then tryAdapter env.gbime
  else if b = "NIMB".data then tryAdapter env.nimb
  else none

/-- `insert_document_from_api` (src lines 1686-1700): return the existing row
for a known URL, otherwise insert (the store assigns `newId`). -/
def insert_document_from_api (db : List Doc) (now : Str) (newId : Nat)
    (bank_id : Nat) (bank_symbol : Str) (doc_info : AdapterReport) :
    Doc × List Doc :=
  match db.filter (fun d => d.pdf_url == doc_info.pdf_url) with
  | d :: _ => (d, db)
  | [] =>
    let nd : Doc :=
      ⟨newId, bank_id, bank_symbol, doc_info.pdf_url, some doc_info.fiscal_year,
        some doc_info.report_type, doc_info.quarter, now, "dynamic".data⟩
    (nd, db ++ [nd])

/-- The JSON body returned by the `/annual-report` endpoint, or an
`HTTPException` status code. -/
inductive ApiResponse where
  | found (source : Str) (bank_symbol : Str) (fiscal_year : Option Str)
      (pdf_url : Option Str)
  | httpError (code : Nat)
deriving DecidableEq, Repr

/-- Result of one `/annual-report` request: the response, whether the
structured-adapter tier and the extraction tier were invoked, and the
database afterwards. -/
structure EndpointResult where
  response : ApiResponse
  adapterCalled : Bool
  scraperCalled : Bool
  db : List Doc
deriving DecidableEq, Repr

/-- `get_annual_report` (src lines 2802-2827): cache lookup under both
calendar forms, then the structured adapter, then the extraction fallback.
`ai` is the verification oracle `insert_document_to_db` would consult on its
duplicate path. -/
def get_annual_report (banks : List BankRow) (db : List Doc) (env : AdapterEnv)
    (scrapeOracle : Nat → ScrapeOutcome) (ai : Option AIMeta) (now : Str)
    (newId : Nat) (bank_symbol fiscal_year : Str) : EndpointResult :=
  let sym := pyUpper bank_symbol
  let p := normalize_fiscal_year fiscal_year
  match get_bank_info banks sym with
  | none => ⟨.httpError 404, false, false, db⟩
  | some bank =>
    let scrapeTier := fun (adapterCalled : Bool) =>
      match scrape_specific_report scrapeOracle bank ("annual".data) with
      | (some report, _) =>
        let w := insert_document_to_db db now newId ai bank.id sym report
        (⟨.found ("scraped".data) sym report.fiscal_year report.file_url,
          adapterCalled, true, w.db⟩ : EndpointResult)
      | (none, _) => ⟨.httpError 404, adapterCalled, true, db⟩
    match (check_document_exists db bank.id p.1 ("annual".data) none).orElse
        (fun _ => check_document_exists db bank.id p.2 ("annual".data) none) with
    | some existing =>
      ⟨.found ("database".data) sym existing.fiscal_year existing.pdf_url,
        false, false, db⟩
    | none =>
      if has_dynamic_api sym then
        match fetch_from_dynamic_api env sym p.1 ("annual".data) none with
        | some api_doc =>
          let r := insert_document_from_api db now newId bank.id sym api_doc
          ⟨.found ("dynamic_api".data) sym r.1.fiscal_year r.1.pdf_url,
            true, false, r.2⟩
        | none => scrapeTier true
      else scrapeTier false

/-! ## Helper lemmas -/

theorem dictGet_of_find_none {d : List (Str × Str)} {k dflt : Str}
    (h : d.find? (fun p => p.1 == k) = none) : dictGet d k dflt = dflt := by
  unfold dictGet; rw [h]

theorem firstMatch_val {P : Str → Prop} {tbl : List (Str × Str)} {s v : Str}
    (h : firstMatch tbl s = some v) (hP : ∀ kv ∈ tbl, P kv.2) : P v := by
  induction tbl with
  | nil => simp [firstMatch] at h
  | cons kv rest ih =>
    rw [firstMatch] at h
    by_cases hc : pyContains s kv.1
    · rw [if_pos hc] at h
      cases h
      exact hP kv (List.mem_cons_self kv rest)
    · rw [if_neg hc] at h
      exact ih h (fun x hx => hP x (List.mem_cons_of_mem kv hx))

theorem firstMatch_append_none {t1 : List (Str × Str)} (t2 : List (Str × Str))
    {s : Str} (h : ∀ kv ∈ t1, pyContains s kv.1 = false) :
    firstMatch (t1 ++ t2) s = firstMatch t2 s := by
  induction t1 with
  | nil => rfl
  | cons kv rest ih =>
    rw [List.cons_append, firstMatch,
      if_neg (by simp [h kv (List.mem_cons_self kv rest)])]
    exact ih (fun x hx => h x (List.mem_cons_of_mem kv hx))

theorem firstMatch_none {tbl : List (Str × Str)} {s : Str}
    (h : ∀ kv ∈ tbl, pyContains s kv.1 = false) : firstMatch tbl s = none := by
  have h2 := firstMatch_append_none [] h
  rw [List.append_nil] at h2
  rw [h2]
  rfl

/-! ## C4 — calendar round-trip on the historical mapping table -/

/-- C4: for every pair of the historical mapping table, the forward table then
the reverse table is a round trip; `normalize_fiscal_year` on either member
returns the two members as mutual translations; a stripped label present in
neither table passes through unchanged in both slots. -/
theorem c4_calendar_roundtrip (p : Str × Str) (hp : p ∈ FISCAL_YEAR_CONVERSION)
    (s : Str) (hs : pyStrip s = s)
    (h1 : FISCAL_YEAR_CONVERSION.find? (fun q => q.1 == s) = none)
    (h2 : FISCAL_YEAR_REVERSE.find? (fun q => q.1 == s) = none) :
    dictGet FISCAL_YEAR_CONVERSION p.1 p.1 = p.2 ∧
    dictGet FISCAL_YEAR_REVERSE p.2 p.2 = p.1 ∧
    normalize_fiscal_year p.1 = (p.2, p.1) ∧
    normalize_fiscal_year p.2 = (p.2, p.1) ∧
    normalize_fiscal_year s = (s, s) := by
  have htab : ∀ q ∈ FISCAL_YEAR_CONVERSION,
      dictGet FISCAL_YEAR_CONVERSION q.1 q.1 = q.2 ∧
      dictGet FISCAL_YEAR_REVERSE q.2 q.2 = q.1 ∧
      normalize_fiscal_year q.1 = (q.2, q.1) ∧
      normalize_fiscal_year q.2 = (q.2, q.1) := by decide
  obtain ⟨a, b, c, d⟩ := htab p hp
  refine ⟨a, b, c, d, ?_⟩
  have e1 : dictGet FISCAL_YEAR_CONVERSION s s = s := dictGet_of_find_none h1
  have e2 : dictGet FISCAL_YEAR_REVERSE s s = s := dictGet_of_find_none h2
  simp only [normalize_fiscal_year, hs]
  cases hy : pyInt? ((splitOnChar '/' s).headI) with
  | none => simp [e2]
  | some y =>
    by_cases hlt : y < 2030
    · simp [hlt, e1]
    · simp [hlt, e2]

/-- Witness for C4 at the pair (2021/22, 2078/79) and the unknown label
2090/91. -/
theorem c4_witness :
    dictGet FISCAL_YEAR_CONVERSION ("2021/22".data) ("2021/22".data) = "2078/79".data ∧
    dictGet FISCAL_YEAR_REVERSE ("2078/79".data) ("2078/79".data) = "2021/22".data ∧
    normalize_fiscal_year ("2021/22".data) = ("2078/79".data, "2021/22".data) ∧
    normalize_fiscal_year ("2078/79".data) = ("2078/79".data, "2021/22".data) ∧
    normalize_fiscal_year ("2090/91".data) = ("2090/91".data, "2090/91".data) :=
  c4_calendar_roundtrip ("2021/22".data, "2078/79".data) (by decide)
    ("2090/91".data) (by decide) (by decide) (by decide)

/-! ## C7 — structure of `extract_quarter_from_title` -/

/-- C7: the Nepali month table is consulted first and decides the result when
it matches; otherwise the English ordinal/numeral keyword table decides; every
result is one of Q1-Q4 (or none); the backend typo `first_quater` is in the
fallback table mapped to Q1; an input matching no token of either table
yields none. -/
theorem c7_extract_quarter_structure (t v : Str) :
    (firstMatch nepali_months (pyLower t) = some v →
      extract_quarter_from_title t = some v) ∧
    (firstMatch nepali_months (pyLower t) = none →
      extract_quarter_from_title t = firstMatch english_keywords (pyLower t)) ∧
    (extract_quarter_from_title t = some v →
      v = "Q1".data ∨ v = "Q2".data ∨ v = "Q3".data ∨ v = "Q4".data) ∧
    ("first_quater".data, "Q1".data) ∈ english_keywords ∧
    ((∀ kv ∈ nepali_months ++ english_keywords,
        pyContains (pyLower t) kv.1 = false) →
      extract_quarter_from_title t = none) := by
  have hnil1 : firstMatch nepali_months (pyLower ([] : Str)) = none := by decide
  have hnil2 : firstMatch english_keywords (pyLower ([] : Str)) = none := by decide
  refine ⟨?_, ?_, ?_, by decide, ?_⟩
  · intro h
    have ht : t ≠ [] := by
      intro he; subst he; rw [hnil1] at h; cases h
    simp [extract_quarter_from_title, ht, h]
  · intro h
    by_cases ht : t = []
    · subst ht; rw [hnil2]; rfl
    · simp [extract_quarter_from_title, ht, h]
  · intro h
    by_cases ht : t = []
    · subst ht
      rw [(by decide : extract_quarter_from_title ([] : Str) = none)] at h
      cases h
    · simp only [extract_quarter_from_title, if_neg ht] at h
      cases hn : firstMatch nepali_months (pyLower t) with
      | some q =>
        rw [hn] at h
        cases h
        exact firstMatch_val
          (P := fun x => x = "Q1".data ∨ x = "Q2".data ∨ x = "Q3".data ∨ x = "Q4".data)
          hn (by decide)
      | none =>
        rw [hn] at h
        exact firstMatch_val
          (P := fun x => x = "Q1".data ∨ x = "Q2".data ∨ x = "Q3".data ∨ x = "Q4".data)
          h (by decide)
  · intro h
    have hn : firstMatch nepali_months (pyLower t) = none :=
      firstMatch_none (fun kv hkv => h kv (List.mem_append_left _ hkv))
    have he : firstMatch english_keywords (pyLower t) = none :=
      firstMatch_none (fun kv hkv => h kv (List.mem_append_right _ hkv))
    by_cases ht : t = []
    · subst ht; rfl
    · simp [extract_quarter_from_title, ht, hn, he]

/-- Witness for C7: the Nepali token decides ("poush" beats "first_quater"),
the fallback serves the typo, and a token-free title yields none. -/
theorem c7_witness :
    extract_quarter_from_title ("poush first_quater".data) = some ("Q2".data) ∧
    extract_quarter_from_title ("report first_quater".data) = some ("Q1".data) ∧
    extract_quarter_from_title ("annual report".data) = none :=
  ⟨(c7_extract_quarter_structure ("poush first_quater".data) ("Q2".data)).1 (by decide),
   by
    have h := (c7_extract_quarter_structure ("report first_quater".data) ("Q1".data)).2.1
      (by decide)
    rw [h]; decide,
   (c7_extract_quarter_structure ("annual report".data) []).2.2.2.2 (by decide)⟩

/-! ## C6 — annual vs Q4 disambiguation on closing-date labels -/

/-- C6 counterexample: the in-code period classifier assigns Q4 to the
closing-date label "Ashad End 2080" even though it carries no
"Unaudited"/"Interim"/"Quarterly" marker, so the marker-free closing-date
label is not classified Annual by the code; the marker-bearing variant gets
the identical classification. -/
theorem c6_counterexample :
    extract_quarter_from_title ("Ashad End 2080".data) = some ("Q4".data) ∧
    extract_quarter_from_title ("Ashad End 2080 Unaudited".data) = some ("Q4".data) := by
  decide

/-- C6 amended: any title containing the closing-date token "ashad" (and no
earlier token of the Nepali month table) is classified Q4 by
`extract_quarter_from_title`, with or without exclusion markers; the
classifier never yields an Annual classification for it. -/
theorem c6_amended (t : Str)
    (h1 : pyContains (pyLower t) ("ashad".data) = true)
    (h2 : ∀ kv ∈ nepali_months.take 14, pyContains (pyLower t) kv.1 = false) :
    extract_quarter_from_title t = some ("Q4".data) := by
  have ht : t ≠ [] := by
    intro he; subst he; exact absurd h1 (by decide)
  have hsplit : nepali_months = nepali_months.take 14 ++ nepali_months.drop 14 :=
    (List.take_append_drop 14 nepali_months).symm
  have hskip : firstMatch nepali_months (pyLower t) =
      firstMatch (nepali_months.drop 14) (pyLower t) := by
    rw [hsplit]
    exact firstMatch_append_none _ h2
  have hdrop : nepali_months.drop 14 =
      [("ashadh".data, "Q4".data), ("ashad".data, "Q4".data),
       ("ashar".data, "Q4".data)] := by decide
  have hq4 : firstMatch nepali_months (pyLower t) = some ("Q4".data) := by
    rw [hskip, hdrop]
    by_cases hc : pyContains (pyLower t) ("ashadh".data)
    · simp [firstMatch, hc]
    · simp [firstMatch, hc, h1]
  simp [extract_quarter_from_title, ht, hq4]

/-- Witness for C6 amended at the marker-bearing and marker-free labels. -/
theorem c6_amended_witness :
    extract_quarter_from_title ("Ashad End 2080 Unaudited".data) = some ("Q4".data) :=
  c6_amended ("Ashad End 2080 Unaudited".data) (by decide) (by decide)

/-! ## C1 — quarter normalization before persistence -/

/-- C1 counterexample: `insert_dev_bank_document_to_db` persists a record with
report_type annual and quarter Q1 (no normalization on the dev-bank path),
and `insert_document_to_db` persists a record with report_type quarterly and
null quarter (the normalization keeps null quarters). -/
theorem c1_counterexample :
    (∃ w ∈ (insert_dev_bank_document_to_db [] ("t0".data) 1 none 7 ("JBBL".data)
        { pdf_url := some ("u".data), fiscal_year := some ("2080/81".data),
          report_type := some ("annual".data),
          quarter := some ("Q1".data) }).writes,
      w.report_type = some ("annual".data) ∧ w.quarter = some ("Q1".data)) ∧
    (∃ w ∈ (insert_document_to_db [] ("t0".data) 1 none 7 ("NABIL".data)
        { file_url := some ("u".data), fiscal_year := some ("2080/81".data),
          report_type := some ("quarterly".data), quarter := none }).writes,
      w.report_type = some ("quarterly".data) ∧ w.quarter = none) := by
  decide

theorem orNone_ne_empty (x : Option Str) : orNone x ≠ some ([] : Str) := by
  cases x with
  | none => simp [orNone]
  | some s =>
    by_cases hs : s = []
    · simp [orNone, hs]
    · simp [orNone, hs]

/-- C1 amended: on both write paths of `insert_document_to_db` the persisted
quarter is normalized immediately before the write — a record written with
report_type annual has null quarter, and a written quarter is never the empty
string (an empty quarter is normalized to null); no such guarantee holds for
`insert_dev_bank_document_to_db`, and a quarterly record may persist with a
null quarter. -/
theorem c1_amended (db : List Doc) (now : Str) (newId : Nat) (ai : Option AIMeta)
    (bank_id : Nat) (sym : Str) (r : Report) (w : Doc)
    (hw : w ∈ (insert_document_to_db db now newId ai bank_id sym r).writes) :
    (w.report_type = some ("annual".data) → w.quarter = none) ∧
    w.quarter ≠ some ([] : Str) := by
  simp only [insert_document_to_db] at hw
  rcases hf : List.filter (fun d => d.pdf_url == r.file_url) db with _ | ⟨d0, tail⟩
  · rw [hf] at hw
    simp only [List.mem_singleton] at hw
    subst hw
    by_cases hrt : r.report_type = some ("annual".data)
    · refine ⟨fun _ => ?_, ?_⟩
      · show (if r.report_type = some ("annual".data) then none
            else orNone r.quarter) = none
        rw [if_pos hrt]
      · show (if r.report_type = some ("annual".data) then none
            else orNone r.quarter) ≠ some ([] : Str)
        rw [if_pos hrt]
        simp
    · refine ⟨fun h => absurd h hrt, ?_⟩
      show (if r.report_type = some ("annual".data) then none
          else orNone r.quarter) ≠ some ([] : Str)
      rw [if_neg hrt]
      exact orNone_ne_empty r.quarter
  · rw [hf] at hw
    cases ai with
    | none => simp at hw
    | some m =>
      by_cases hconf : confidenceOk m
      · simp only [if_pos hconf] at hw
        by_cases hm : d0.fiscal_year = m.fiscal_year ∧
            d0.report_type = m.report_type ∧ d0.quarter =
              (if m.report_type = some ("annual".data) then none
               else orNone m.quarter)
        · simp [hm] at hw
        · simp only [if_neg hm, List.mem_singleton] at hw
          subst hw
          by_cases hrt : m.report_type = some ("annual".data)
          · refine ⟨fun _ => ?_, ?_⟩
            · show (if m.report_type = some ("annual".data) then none
                  else orNone m.quarter) = none
              rw [if_pos hrt]
            · show (if m.report_type = some ("annual".data) then none
                  else orNone m.quarter) ≠ some ([] : Str)
              rw [if_pos hrt]
              simp
          · refine ⟨fun h => absurd h hrt, ?_⟩
            show (if m.report_type = some ("annual".data) then none
                else orNone m.quarter) ≠ some ([] : Str)
            rw [if_neg hrt]
            exact orNone_ne_empty m.quarter
      · simp [hconf] at hw

/-- Witness for C1 amended: the record persisted for an annual report with a
(spurious) Q3 quarter has null quarter and a non-empty-string quarter. -/
theorem c1_amended_witness :
    ((⟨1, 7, "NABIL".data, some ("u".data), some ("2080/81".data),
        some ("annual".data), none, "t0".data, "api".data⟩ : Doc).report_type =
        some ("annual".data) →
      (⟨1, 7, "NABIL".data, some ("u".data), some ("2080/81".data),
        some ("annual".data), none, "t0".data, "api".data⟩ : Doc).quarter = none) ∧
    (⟨1, 7, "NABIL".data, some ("u".data), some ("2080/81".data),
      some ("annual".data), none, "t0".data, "api".data⟩ : Doc).quarter ≠
      some ([] : Str) :=
  c1_amended [] ("t0".data) 1 none 7 ("NABIL".data)
    { file_url := some ("u".data), fiscal_year := some ("2080/81".data),
      report_type := some ("annual".data), quarter := some ("Q3".data) }
    _ (by decide)

/-! ## C3 — reconciliation stability under failed or Low-confidence
verification -/

/-- C3: on the duplicate-URL (reconciliation) path of both insert functions,
a failed verification (`none`) or a confidence outside {high, medium} leaves
the stored record unchanged (no write, database unchanged, the existing
record returned); a metadata write happens only when the confidence is high
or medium and at least one of the three compared fields differs, and then the
written record carries the fresh timestamp `now`. -/
theorem c3_reconciliation_stability
    (db : List Doc) (now : Str) (newId : Nat) (bank_id : Nat) (sym : Str)
    (r : Report) (m : AIMeta) (d d₂ : Doc) (rest rest₂ : List Doc)
    (hex : db.filter (fun x => x.pdf_url == r.file_url) = d :: rest)
    (hex₂ : db.filter (fun x => x.pdf_url == pyOr r.pdf_url r.file_url) = d₂ :: rest₂)
    (hlow : ¬ confidenceOk m) :
    insert_document_to_db db now newId none bank_id sym r = ⟨some d, db, []⟩ ∧
    insert_document_to_db db now newId (some m) bank_id sym r = ⟨some d, db, []⟩ ∧
    insert_dev_bank_document_to_db db now newId none bank_id sym r = ⟨some d₂, db, []⟩ ∧
    insert_dev_bank_document_to_db db now newId (some m) bank_id sym r = ⟨some d₂, db, []⟩ ∧
    (∀ (m' : AIMeta) (w : Doc),
      w ∈ (insert_document_to_db db now newId (some m') bank_id sym r).writes →
      confidenceOk m' ∧ w.scraped_at = now ∧
      ¬ (d.fiscal_year = m'.fiscal_year ∧ d.report_type = m'.report_type ∧
        d.quarter = (if m'.report_type = some ("annual".data) then none
                     else orNone m'.quarter))) ∧
    (∀ (m' : AIMeta) (w : Doc),
      w ∈ (insert_dev_bank_document_to_db db now newId (some m') bank_id sym r).writes →
      confidenceOk m' ∧ w.scraped_at = now ∧
      ¬ (d₂.fiscal_year = m'.fiscal_year ∧ d₂.report_type = m'.report_type ∧
        d₂.quarter = m'.quarter)) := by
  refine ⟨?_, ?_, ?_, ?_, ?_, ?_⟩
  · simp [insert_document_to_db, hex]
  · simp [insert_document_to_db, hex, hlow]
  · simp [insert_dev_bank_document_to_db, hex₂]
  · simp [insert_dev_bank_document_to_db, hex₂, hlow]
  · intro m' w hw
    simp only [insert_document_to_db, hex] at hw
    by_cases hconf : confidenceOk m'
    · simp only [if_pos hconf] at hw
      by_cases hm : d.fiscal_year = m'.fiscal_year ∧
          d.report_type = m'.report_type ∧ d.quarter =
            (if m'.report_type = some ("annual".data) then none
             else orNone m'.quarter)
      · simp [hm] at hw
      · simp only [if_neg hm, List.mem_singleton] at hw
        subst hw
        exact ⟨hconf, rfl, hm⟩
    · simp [hconf] at hw
  · intro m' w hw
    simp only [insert_dev_bank_document_to_db, hex₂] at hw
    by_cases hconf : confidenceOk m'
    · simp only [if_pos hconf] at hw
      by_cases hm : d₂.fiscal_year = m'.fiscal_year ∧
          d₂.report_type = m'.report_type ∧ d₂.quarter = m'.quarter
      · simp [hm] at hw
      · simp only [if_neg hm, List.mem_singleton] at hw
        subst hw
        exact ⟨hconf, rfl, hm⟩
    · simp [hconf] at hw

/-- Witness for C3: a low-confidence verification on a cached URL returns the
stored record and leaves the one-row database unchanged. -/
theorem c3_witness :
    insert_document_to_db
      [⟨5, 7, "NABIL".data, some ("u".data), some ("2078/79".data),
        some ("annual".data), none, "t0".data, "api".data⟩]
      ("t1".data) 9
      (some { fiscal_year := some ("2079/80".data),
              report_type := some ("annual".data), quarter := none,
              confidence := some ("low".data) })
      7 ("NABIL".data) { file_url := some ("u".data) } =
      ⟨some ⟨5, 7, "NABIL".data, some ("u".data), some ("2078/79".data),
          some ("annual".data), none, "t0".data, "api".data⟩,
        [⟨5, 7, "NABIL".data, some ("u".data), some ("2078/79".data),
          some ("annual".data), none, "t0".data, "api".data⟩], []⟩ :=
  (c3_reconciliation_stability
    [⟨5, 7, "NABIL".data, some ("u".data), some ("2078/79".data),
      some ("annual".data), none, "t0".data, "api".data⟩]
    ("t1".data) 9 7 ("NABIL".data) { file_url := some ("u".data) }
    { fiscal_year := some ("2079/80".data), report_type := some ("annual".data),
      quarter := none, confidence := some ("low".data) }
    ⟨5, 7, "NABIL".data, some ("u".data), some ("2078/79".data),
      some ("annual".data), none, "t0".data, "api".data⟩
    ⟨5, 7, "NABIL".data, some ("u".data), some ("2078/79".data),
      some ("annual".data), none, "t0".data, "api".data⟩
    [] []
    (by decide) (by decide) (by decide)).2.1

/-! ## C5 — adapters fail soft -/

/-- C5: a raised exception inside an adapter body (any transport or parse
error) makes the adapter return `None`; with every adapter body failing, the
commercial-bank dispatcher `fetch_from_dynamic_api` still returns `None` for
every symbol instead of propagating the exception, so the orchestrator can
fall through to the extraction tier. -/
theorem c5_adapters_fail_soft (env : AdapterEnv) (e₁ e₂ e₃ e₄ e₅ : Str)
    (h1 : env.nabil = .error e₁) (h2 : env.pcbl = .error e₂)
    (h3 : env.sanima = .error e₃) (h4 : env.gbime = .error e₄)
    (h5 : env.nimb = .error e₅)
    (sym fy rt : Str) (q : Option Str) :
    fetch_from_nabil_api env.nabil fy rt q = none ∧
    fetch_from_dynamic_api env sym fy rt q = none := by
  have hnab : fetch_from_nabil_api env.nabil fy rt q = none := by
    rw [h1]; rfl
  refine ⟨hnab, ?_⟩
  unfold fetch_from_dynamic_api
  by_cases hA : has_dynamic_api (pyUpper sym)
  · simp only [hA, not_true, if_neg, ite_false, if_false]
    by_cases e1 : pyUpper sym = "NABIL".data
    · simp [e1, hnab]
    · by_cases e2 : pyUpper sym = "PCBL".data
      · simp [e1, e2, tryAdapter, h2]
      · by_cases e3 : pyUpper sym = "SANIMA".data
        · simp [e1, e2, e3, tryAdapter, h3]
        · by_cases e4 : pyUpper sym = "GBIME".data
          · simp [e1, e2, e3, e4, tryAdapter, h4]
          · by_cases e5 : pyUpper sym = "NIMB".data
            · simp [e1, e2, e3, e4, e5, tryAdapter, h5]
            · simp [e1, e2, e3, e4, e5]
  · simp [hA]

/-- Witness for C5: with every adapter transport raising, the dispatcher
returns `None` for the NABIL symbol. -/
theorem c5_witness :
    fetch_from_nabil_api (.error ("boom".data)) ("2078/79".data)
      ("annual".data) none = none ∧
    fetch_from_dynamic_api
      ⟨.error ("boom".data), .error ("boom".data), .error ("boom".data),
        .error ("boom".data), .error ("boom".data)⟩
      ("nabil".data) ("2078/79".data) ("annual".data) none = none :=
  c5_adapters_fail_soft
    ⟨.error ("boom".data), .error ("boom".data), .error ("boom".data),
      .error ("boom".data), .error ("boom".data)⟩
    ("boom".data) ("boom".data) ("boom".data) ("boom".data) ("boom".data)
    rfl rfl rfl rfl rfl ("nabil".data) ("2078/79".data) ("annual".data) none

/-! ## C8 — contract of `normalize_fiscal_year_format` -/

/-- C8 counterexample: a hyphen-separated label is returned unchanged — it is
not normalized like the slash form, which collapses to `2078/79`. -/
theorem c8_counterexample :
    normalize_fiscal_year_format ("2078-2079".data) = "2078-2079".data ∧
    normalize_fiscal_year_format ("2078-2079".data) ≠ "2078/79".data ∧
    normalize_fiscal_year_format ("2078/2079".data) = "2078/79".data := by
  decide

/-! ## C9 — extraction-tier retry policy -/

/-- C9 counterexample: for a single-URL bank, a constant HTTP-429 upstream is
retried with 20-second waits (the claim says 30 s for 429), and an
empty/missing JSON payload is retried on the same URL (three scrape calls,
no per-class wait) instead of moving immediately to the next URL. -/
theorem c9_counterexample :
    (scrape_specific_report (fun _ => .ok (some 429) none)
      { id := 1, symbol := "TEST".data, annual_report_url := some ("u".data) }
      ("annual".data)).2 = ⟨3, [20, 5, 20, 10, 3]⟩ ∧
    (scrape_specific_report (fun _ => .ok (some 200) none)
      { id := 1, symbol := "TEST".data, annual_report_url := some ("u".data) }
      ("annual".data)).2 = ⟨3, [5, 10, 3]⟩ := by
  decide

/-! ## C2 — cache hit terminates resolution without collaborators -/

/-- C2: when the bank exists and `check_document_exists` finds a stored
document under either calendar form of the requested period, the
`/annual-report` endpoint returns that stored document with source
"database", does not invoke the structured-adapter tier or the extraction
tier, and leaves the database unchanged; a second resolution of the same
request — under arbitrary (different) adapter, scrape and verification
oracles — returns the identical stored document. -/
theorem c2_cache_hit (banks : List BankRow) (db : List Doc)
    (env env₂ : AdapterEnv) (scr scr₂ : Nat → ScrapeOutcome)
    (ai ai₂ : Option AIMeta) (now now₂ : Str) (newId newId₂ : Nat)
    (bank_symbol fiscal_year : Str) (bank : BankRow) (ex : Doc)
    (hb : get_bank_info banks (pyUpper bank_symbol) = some bank)
    (hex : (check_document_exists db bank.id
        (normalize_fiscal_year fiscal_year).1 ("annual".data) none).orElse
        (fun _ => check_document_exists db bank.id
          (normalize_fiscal_year fiscal_year).2 ("annual".data) none) =
        some ex) :
    get_annual_report banks db env scr ai now newId bank_symbol fiscal_year =
      ⟨.found ("database".data) (pyUpper bank_symbol) ex.fiscal_year ex.pdf_url,
        false, false, db⟩ ∧
    get_annual_report banks db env₂ scr₂ ai₂ now₂ newId₂ bank_symbol fiscal_year =
      ⟨.found ("database".data) (pyUpper bank_symbol) ex.fiscal_year ex.pdf_url,
        false, false, db⟩ := by
  constructor <;> · simp only [get_annual_report, hb, hex]

/-- Witness for C2: a cached annual report for ADBL 2078/79 is served from
the database under two different oracle environments. -/
theorem c2_witness :
    get_annual_report
      [{ id := 1, symbol := "ADBL".data }]
      [⟨5, 1, "ADBL".data, some ("u".data), some ("2078/79".data),
        some ("annual".data), none, "t0".data, "api".data⟩]
      ⟨.error ("x".data), .error ("x".data), .error ("x".data),
        .error ("x".data), .error ("x".data)⟩
      (fun _ => .raise ("x".data)) none ("t1".data) 9
      ("adbl".data) ("2078/79".data) =
      ⟨.found ("database".data) ("ADBL".data) (some ("2078/79".data))
        (some ("u".data)), false, false,
        [⟨5, 1, "ADBL".data, some ("u".data), some ("2078/79".data),
          some ("annual".data), none, "t0".data, "api".data⟩]⟩ ∧
    get_annual_report
      [{ id := 1, symbol := "ADBL".data }]
      [⟨5, 1, "ADBL".data, some ("u".data), some ("2078/79".data),
        some ("annual".data), none, "t0".data, "api".data⟩]
      ⟨.ok (200, []), .ok none, .ok none, .ok none, .ok none⟩
      (fun _ => .ok (some 200) none) none ("t2".data) 11
      ("adbl".data) ("2078/79".data) =
      ⟨.found ("database".data) ("ADBL".data) (some ("2078/79".data))
        (some ("u".data)), false, false,
        [⟨5, 1, "ADBL".data, some ("u".data), some ("2078/79".data),
          some ("annual".data), none, "t0".data, "api".data⟩]⟩ :=
  c2_cache_hit
    [{ id := 1, symbol := "ADBL".data }]
    [⟨5, 1, "ADBL".data, some ("u".data), some ("2078/79".data),
      some ("annual".data), none, "t0".data, "api".data⟩]
    ⟨.error ("x".data), .error ("x".data), .error ("x".data),
      .error ("x".data), .error ("x".data)⟩
    ⟨.ok (200, []), .ok none, .ok none, .ok none, .ok none⟩
    (fun _ => .raise ("x".data)) (fun _ => .ok (some 200) none)
    none none ("t1".data) ("t2".data) 9 11
    ("adbl".data) ("2078/79".data)
    { id := 1, symbol := "ADBL".data }
    ⟨5, 1, "ADBL".data, some ("u".data), some ("2078/79".data),
      some ("annual".data), none, "t0".data, "api".data⟩
    (by decide) (by decide)

theorem tryUrlAux_calls_le (oracle : Nat → ScrapeOutcome) (max : Nat) :
    ∀ (r : Nat) (st : ScrapeState),
      (tryUrlAux oracle max r st).2.calls ≤ st.calls + r := by
  intro r
  induction r with
  | zero => intro st; simp [tryUrlAux]
  | succ n ih =>
    intro st
    simp only [tryUrlAux]
    repeat' split
    all_goals
      first
      | (refine le_trans (ih _) ?_; simp [addSleep, bumpCall]; omega)
      | simp [addSleep, bumpCall]

/-- C9 amended: the per-URL retry policy of `scrape_specific_report` with its
fixed bound of 3 attempts.  Any HTTP status ≥ 400 — including 429 alongside
502/503 — waits 20 s before the retry; a raised exception (timeouts included)
waits 10 s; an empty/missing JSON payload is retried on the same URL with no
class-specific wait; an explicit not-found payload aborts the URL without
retrying; the escalating pre-retry backoff is 5 s × attempt index; at most 3
scrape calls are issued per URL; a 3-second cooldown separates consecutive
URLs. -/
theorem c9_amended (oracle : Nat → ScrapeOutcome) (st st' : ScrapeState)
    (msg : Str) (s : Option Nat) (jo : Option ScrapeJson) (j : ScrapeJson)
    (u : Str × Str) (rest : List (Str × Str)) :
    ((tryUrlAux oracle 3 3 st).2.calls ≤ st.calls + 3) ∧
    (oracle st.calls = .raise msg →
      tryUrlAux oracle 3 3 st = tryUrlAux oracle 3 2 (addSleep (bumpCall st) 10)) ∧
    (oracle st.calls = .ok s jo → statusBad s = true →
      tryUrlAux oracle 3 3 st = tryUrlAux oracle 3 2 (addSleep (bumpCall st) 20)) ∧
    (oracle st.calls = .ok s none → statusBad s = false →
      tryUrlAux oracle 3 3 st = tryUrlAux oracle 3 2 (bumpCall st)) ∧
    (oracle st.calls = .ok s (some j) → statusBad s = false →
      scrapeHit j = false → tryUrlAux oracle 3 3 st = (none, bumpCall st)) ∧
    (oracle st.calls = .ok s (some j) → statusBad s = false →
      scrapeHit j = true → tryUrlAux oracle 3 3 st = (j.report, bumpCall st)) ∧
    (oracle st.calls = .raise msg →
      tryUrlAux oracle 3 2 st =
        tryUrlAux oracle 3 1 (addSleep (bumpCall (addSleep st 5)) 10)) ∧
    (oracle st.calls = .raise msg →
      tryUrlAux oracle 3 1 st = (none, bumpCall (addSleep st 10))) ∧
    (statusBad (some 429) = true ∧ statusBad (some 502) = true ∧
      statusBad (some 503) = true) ∧
    (tryUrlAux oracle 3 3 st = (none, st') →
      goUrls oracle 3 (u :: rest) st = goUrls oracle 3 rest (addSleep st' 3)) := by
  refine ⟨tryUrlAux_calls_le oracle 3 3 st, ?_, ?_, ?_, ?_, ?_, ?_, ?_,
    by decide, ?_⟩
  · intro h; simp [tryUrlAux, h, addSleep, bumpCall]
  · intro h hb; simp [tryUrlAux, h, hb, addSleep, bumpCall]
  · intro h hb; simp [tryUrlAux, h, hb, addSleep, bumpCall]
  · intro h hb hj; simp [tryUrlAux, h, hb, hj, addSleep, bumpCall]
  · intro h hb hj; simp [tryUrlAux, h, hb, hj, addSleep, bumpCall]
  · intro h; simp [tryUrlAux, h, addSleep, bumpCall]
  · intro h; simp [tryUrlAux, h, addSleep, bumpCall]
  · intro h; simp [goUrls, h]

/-- Witness for C9 amended: the raise step, the 429 step and the cooldown
step at concrete states. -/
theorem c9_amended_witness :
    (tryUrlAux (fun _ => .raise ("x".data)) 3 3 ⟨0, []⟩ =
      tryUrlAux (fun _ => .raise ("x".data)) 3 2 (addSleep (bumpCall ⟨0, []⟩) 10)) ∧
    (tryUrlAux (fun _ => .ok (some 429) none) 3 3 ⟨0, []⟩ =
      tryUrlAux (fun _ => .ok (some 429) none) 3 2 (addSleep (bumpCall ⟨0, []⟩) 20)) ∧
    (goUrls (fun _ => .raise ("x".data)) 3 [("u".data, "t".data)] ⟨0, []⟩ =
      goUrls (fun _ => .raise ("x".data)) 3 []
        (addSleep ⟨3, [10, 5, 10, 10]⟩ 3)) :=
  ⟨(c9_amended (fun _ => .raise ("x".data)) ⟨0, []⟩ ⟨0, []⟩ ("x".data)
      none none ⟨false, none⟩ ("u".data, "t".data) []).2.1 rfl,
   (c9_amended (fun _ => .ok (some 429) none) ⟨0, []⟩ ⟨0, []⟩ ("x".data)
      (some 429) none ⟨false, none⟩ ("u".data, "t".data) []).2.2.1 rfl (by decide),
   (c9_amended (fun _ => .raise ("x".data)) ⟨0, []⟩ ⟨3, [10, 5, 10, 10]⟩
      ("x".data) none none ⟨false, none⟩ ("u".data, "t".data) []).2.2.2.2.2.2.2.2.2
      (by decide)⟩

/-! ## String lemmas for the fiscal-year normalizer -/

theorem pyStrip_sublist (l : Str) : List.Sublist (pyStrip l) l :=
  (List.IsPrefix.sublist
    ( List.rdropWhile_prefix isSpace (l.dropWhile isSpace))).trans
    (List.dropWhile_sublist isSpace)

theorem mem_of_mem_pyStrip {c : Char} {l : Str} (h : c ∈ pyStrip l) : c ∈ l :=
  (pyStrip_sublist l).subset h

theorem dropWhile_pyStrip_nil {l : Str} (h : l.dropWhile isSpace = []) :
    pyStrip l = [] := by
  unfold pyStrip
  rw [h]
  simp [List.rdropWhile]

theorem head_pyStrip_not_space (l : Str) (h : pyStrip l ≠ []) :
    isSpace ((pyStrip l).head h) = false := by
  have hd : l.dropWhile isSpace ≠ [] := by
    intro he
    exact h (dropWhile_pyStrip_nil he)
  have hpre : pyStrip l <+: l.dropWhile isSpace :=
    List.rdropWhile_prefix isSpace (l.dropWhile isSpace)
  rw [List.IsPrefix.head hpre h]
  simpa using List.head_dropWhile_not isSpace l hd

theorem getLast_pyStrip_not_space (l : Str) (h : pyStrip l ≠ []) :
    isSpace ((pyStrip l).getLast h) = false := by
  simpa using List.rdropWhile_last_not isSpace (l.dropWhile isSpace) h

theorem pyStrip_eq_self_of_ends {l : Str} (hne : l ≠ [])
    (hh : isSpace (l.head hne) = false)
    (hl : isSpace (l.getLast hne) = false) : pyStrip l = l := by
  unfold pyStrip
  have A : l.dropWhile isSpace = l := by
    apply List.dropWhile_eq_self_iff.mpr
    intro hl0
    rw [List.get_mk_zero]
    simp only [Bool.not_eq_true]
    exact hh
  rw [A]
  apply List.rdropWhile_eq_self_iff.mpr
  intro hl1
  simp only [Bool.not_eq_true]
  exact hl

theorem pyStrip_idem (l : Str) : pyStrip (pyStrip l) = pyStrip l := by
  by_cases hni : pyStrip l = []
  · rw [hni]; rfl
  · exact pyStrip_eq_self_of_ends hni (head_pyStrip_not_space l hni)
      (getLast_pyStrip_not_space l hni)

theorem pyStrip_eq_self_of_all {l : Str} (h : ∀ c ∈ l, isSpace c = false) :
    pyStrip l = l := by
  cases l with
  | nil => rfl
  | cons a as =>
    apply pyStrip_eq_self_of_ends (by simp)
    · simpa using h a (List.mem_cons_self a as)
    · exact h _ (List.getLast_mem (by simp))

theorem splitOnChar_ne_nil (sep : Char) (l : Str) : splitOnChar sep l ≠ [] := by
  cases l with
  | nil => simp [splitOnChar]
  | cons c cs =>
    rw [splitOnChar]
    by_cases hc : c = sep
    · simp [hc]
    · simp only [if_neg hc]
      cases splitOnChar sep cs with
      | nil => simp
      | cons h t => simp

theorem splitOnChar_not_mem {sep : Char} {l : Str} (h : sep ∉ l) :
    splitOnChar sep l = [l] := by
  induction l with
  | nil => rfl
  | cons c cs ih =>
    have hc : c ≠ sep := fun he => h (he ▸ List.mem_cons_self c cs)
    have hcs : sep ∉ cs := fun hm => h (List.mem_cons_of_mem c hm)
    rw [splitOnChar]
    simp only [if_neg hc, ih hcs]

theorem splitOnChar_append {sep : Char} {a : Str} (b : Str) (h : sep ∉ a) :
    splitOnChar sep (a ++ sep :: b) = a :: splitOnChar sep b := by
  induction a with
  | nil => simp [splitOnChar]
  | cons x a' ih =>
    have hx : x ≠ sep := fun he => h (he ▸ List.mem_cons_self x a')
    have ha' : sep ∉ a' := fun hm => h (List.mem_cons_of_mem x hm)
    rw [List.cons_append, splitOnChar]
    simp only [if_neg hx, ih ha']

theorem splitOnChar_parts_not_mem {sep : Char} {l : Str} {p : Str}
    (hp : p ∈ splitOnChar sep l) : sep ∉ p := by
  induction l generalizing p with
  | nil =>
    simp [splitOnChar] at hp
    subst hp
    simp
  | cons c cs ih =>
    rw [splitOnChar] at hp
    by_cases hc : c = sep
    · rw [if_pos hc] at hp
      rcases List.mem_cons.mp hp with h | h
      · subst h; simp
      · exact ih h
    · rw [if_neg hc] at hp
      cases hr : splitOnChar sep cs with
      | nil => exact absurd hr (splitOnChar_ne_nil sep cs)
      | cons ph pt =>
        rw [hr] at hp
        rcases List.mem_cons.mp hp with h | h
        · subst h
          intro hm
          rcases List.mem_cons.mp hm with h' | h'
          · exact hc h'.symm
          · exact ih (hr ▸ List.mem_cons_self ph pt) h'
        · exact ih (hr ▸ List.mem_cons_of_mem ph h)

/-! ## C8 — amended contract of `normalize_fiscal_year_format` -/

/-- C8 amended: the normalizer strips surrounding whitespace (it always
equals its value on the stripped input); on a slash-separated label whose two
parts are 4-digit years it collapses the trailing year to two digits; a label
whose stripped form has no slash — every hyphen-separated variant included —
comes back as the stripped input, unconverted. -/
theorem c8_amended (s d1 d2 : Str) (hs : s ≠ [])
    (hns : ('/' : Char) ∉ pyStrip s)
    (hd1 : d1.length = 4) (hd2 : d2.length = 4)
    (hdig1 : ∀ c ∈ d1, c.isDigit = true) (hdig2 : ∀ c ∈ d2, c.isDigit = true) :
    normalize_fiscal_year_format s = pyStrip s ∧
    normalize_fiscal_year_format (d1 ++ '/' :: d2) = d1 ++ '/' :: lastTwo d2 ∧
    (∀ u, u ≠ [] → normalize_fiscal_year_format u =
      normalize_fiscal_year_format (pyStrip u)) := by
  have hnotspace : ∀ {c : Char}, c.isDigit = true → isSpace c = false := by
    intro c h
    by_contra hsp
    rw [Bool.not_eq_false] at hsp
    simp only [isSpace, Bool.or_eq_true, beq_iff_eq] at hsp
    rcases hsp with ((((h1 | h1) | h1) | h1) | h1) | h1 <;>
      (subst h1; exact absurd h (by decide))
  refine ⟨?_, ?_, ?_⟩
  · simp [normalize_fiscal_year_format, hs, hns]
  · have hsp1 : ∀ c ∈ d1, isSpace c = false := fun c hc => hnotspace (hdig1 c hc)
    have hsp2 : ∀ c ∈ d2, isSpace c = false := fun c hc => hnotspace (hdig2 c hc)
    have hsl1 : ('/' : Char) ∉ d1 := fun hm => absurd (hdig1 '/' hm) (by decide)
    have hsl2 : ('/' : Char) ∉ d2 := fun hm => absurd (hdig2 '/' hm) (by decide)
    have e1 : pyStrip d1 = d1 := pyStrip_eq_self_of_all hsp1
    have e2 : pyStrip d2 = d2 := pyStrip_eq_self_of_all hsp2
    have htne : d1 ++ '/' :: d2 ≠ [] := by simp
    have hstrip : pyStrip (d1 ++ '/' :: d2) = d1 ++ '/' :: d2 := by
      apply pyStrip_eq_self_of_all
      intro c hc
      rcases List.mem_append.mp hc with h | h
      · exact hsp1 c h
      · rcases List.mem_cons.mp h with h' | h'
        · subst h'; decide
        · exact hsp2 c h'
    have hmem : ('/' : Char) ∈ d1 ++ '/' :: d2 := by simp
    have hsplit : splitOnChar '/' (d1 ++ '/' :: d2) = [d1, d2] := by
      rw [splitOnChar_append d2 hsl1, splitOnChar_not_mem hsl2]
    simp [normalize_fiscal_year_format, htne, hstrip, hmem, hsplit, e1, e2,
      hd1, hd2]
  · intro u hu
    by_cases hu0 : pyStrip u = []
    · simp [normalize_fiscal_year_format, hu, hu0]
    · simp [normalize_fiscal_year_format, hu, hu0, pyStrip_idem]

/-- Witness for C8 amended at "  2078-2079 " (hyphen variant: stripped only)
and "2078/2079" (slash variant: collapsed). -/
theorem c8_amended_witness :
    normalize_fiscal_year_format (" 2078-2079 ".data) = "2078-2079".data ∧
    normalize_fiscal_year_format ("2078/2079".data) = "2078/79".data := by
  have h := c8_amended (" 2078-2079 ".data) ("2078".data) ("2079".data)
    (by decide) (by decide) (by decide) (by decide) (by decide) (by decide)
  refine ⟨?_, ?_⟩
  · rw [h.1]; decide
  · have h2 := h.2.1
    rw [(by decide : "2078".data ++ '/' :: "2079".data = "2078/2079".data)] at h2
    rw [h2]; decide

/-! ## C10 — idempotence of `normalize_fiscal_year_format` -/

/-- C10: `normalize_fiscal_year_format` is idempotent — re-normalizing an
already-normalized fiscal-year label never changes it. -/
theorem c10_normalize_idempotent (s : Str) :
    normalize_fiscal_year_format (normalize_fiscal_year_format s) =
      normalize_fiscal_year_format s := by
  by_cases h0 : s = []
  · subst h0; rfl
  · have hfyidem : pyStrip (pyStrip s) = pyStrip s := pyStrip_idem s
    by_cases hsl : ('/' : Char) ∈ pyStrip s
    · have hfy0 : pyStrip s ≠ [] := List.ne_nil_of_mem hsl
      rcases hp : splitOnChar '/' (pyStrip s) with _ | ⟨p1, _ | ⟨p2, _ | ⟨p3, rest3⟩⟩⟩
      · exact absurd hp (splitOnChar_ne_nil '/' (pyStrip s))
      · have hval : normalize_fiscal_year_format s = pyStrip s := by
          simp [normalize_fiscal_year_format, h0, hsl, hp]
        rw [hval]
        simp [normalize_fiscal_year_format, hfy0, hfyidem, hsl, hp]
      · by_cases hc : (pyStrip p1).length = 4 ∧ (pyStrip p2).length = 4
        · -- the collapsing case: the output is itself a fixed point
          have hval : normalize_fiscal_year_format s =
              pyStrip p1 ++ '/' :: lastTwo (pyStrip p2) := by
            simp [normalize_fiscal_year_format, h0, hsl, hp, hc]
          rw [hval]
          have hy1ne : pyStrip p1 ≠ [] := by
            intro h; rw [h] at hc; simp at hc
          have hl2len : (lastTwo (pyStrip p2)).length = 2 := by
            simp [lastTwo, hc.2]
          have hl2ne : lastTwo (pyStrip p2) ≠ [] := by
            intro h; rw [h] at hl2len; simp at hl2len
          have hp1mem : p1 ∈ splitOnChar '/' (pyStrip s) := by
            rw [hp]; exact List.mem_cons_self _ _
          have hp2mem : p2 ∈ splitOnChar '/' (pyStrip s) := by
            rw [hp]; exact List.mem_cons_of_mem _ (List.mem_cons_self _ _)
          have hny1 : ('/' : Char) ∉ pyStrip p1 := fun hm =>
            splitOnChar_parts_not_mem hp1mem (mem_of_mem_pyStrip hm)
          have hnl2 : ('/' : Char) ∉ lastTwo (pyStrip p2) := fun hm =>
            splitOnChar_parts_not_mem hp2mem
              (mem_of_mem_pyStrip ((List.drop_suffix _ _).subset hm))
          have htne : pyStrip p1 ++ '/' :: lastTwo (pyStrip p2) ≠ [] := by simp
          have hh : isSpace ((pyStrip p1 ++ '/' :: lastTwo (pyStrip p2)).head htne)
              = false := by
            rw [List.head_append_left hy1ne]
            exact head_pyStrip_not_space p1 hy1ne
          have hlast : isSpace
              ((pyStrip p1 ++ '/' :: lastTwo (pyStrip p2)).getLast htne) = false := by
            rw [List.getLast_append_right
              (show ('/' :: lastTwo (pyStrip p2)) ≠ [] by simp)]
            rw [List.getLast_cons hl2ne]
            have hsuf : lastTwo (pyStrip p2) <:+ pyStrip p2 :=
              List.drop_suffix _ _
            rw [List.IsSuffix.getLast hsuf hl2ne]
            exact getLast_pyStrip_not_space p2 (hsuf.ne_nil hl2ne)
          have hstript : pyStrip (pyStrip p1 ++ '/' :: lastTwo (pyStrip p2)) =
              pyStrip p1 ++ '/' :: lastTwo (pyStrip p2) :=
            pyStrip_eq_self_of_ends htne hh hlast
          have hmemt : ('/' : Char) ∈ pyStrip p1 ++ '/' :: lastTwo (pyStrip p2) := by
            simp
          have hsplitt : splitOnChar '/' (pyStrip p1 ++ '/' :: lastTwo (pyStrip p2))
              = [pyStrip p1, lastTwo (pyStrip p2)] := by
            rw [splitOnChar_append _ hny1, splitOnChar_not_mem hnl2]
          have hlen2 : ¬ ((pyStrip (pyStrip p1)).length = 4 ∧
              (pyStrip (lastTwo (pyStrip p2))).length = 4) := by
            intro hcc
            have hle : (pyStrip (lastTwo (pyStrip p2))).length ≤ 2 :=
              le_trans (List.Sublist.length_le (pyStrip_sublist _))
                (le_of_eq hl2len)
            omega
          simp [normalize_fiscal_year_format, htne, hstript, hmemt, hsplitt,
            hlen2]
        · have hval : normalize_fiscal_year_format s = pyStrip s := by
            simp [normalize_fiscal_year_format, h0, hsl, hp, hc]
          rw [hval]
          simp [normalize_fiscal_year_format, hfy0, hfyidem, hsl, hp, hc]
      · have hval : normalize_fiscal_year_format s = pyStrip s := by
          simp [normalize_fiscal_year_format, h0, hsl, hp]
        rw [hval]
        simp [normalize_fiscal_year_format, hfy0, hfyidem, hsl, hp]
    · have hval : normalize_fiscal_year_format s = pyStrip s := by
        simp [normalize_fiscal_year_format, h0, hsl]
      rw [hval]
      by_cases hfy0 : pyStrip s = []
      · rw [hfy0]; rfl
      · simp [normalize_fiscal_year_format, hfy0, hfyidem, hsl]

end FinDocs
